import Mathlib

/-!
Shallow embedding of the `gkegateway_backend_service` data source of the
terraform-provider-gkegateway repository.

The embedding follows `internal/provider/backend_service_data_source.go`
(`BackendServiceDataSource.Read`) and the provider configuration data in
`internal/provider/provider.go` (`GKEGatewayProviderData`).  Google Cloud
client calls are modelled by a `World` record of response functions; the
`Read` method becomes the pure function `read`, which also records the
ordered trace of client calls it performs, so that statements about which
client variant (regional vs global) is used are expressible.
-/

namespace GkeGateway

/-- Splitting of a character list at every occurrence of the separator
character, keeping empty segments.  This is the behaviour of Go's
`strings.Split` (for a one-character separator) and of Lean's
`String.splitOn`, re-implemented here so that it reduces inside the kernel. -/
def splitChars (c : Char) : List Char → List (List Char)
  | [] => [[]]
  | x :: xs =>
    match splitChars c xs with
    | [] => if x == c then [[], [x]] else [[x]]
    | h :: t => if x == c then [] :: h :: t else (x :: h) :: t

/-- Go's `strings.Split s (String.singleton c)`: the list of segments of `s`
between occurrences of `c`.  Never empty; `goSplit c "" = [""]`. -/
def goSplit (c : Char) (s : String) : List String :=
  (splitChars c s.data).map String.mk

/-- Last segment of a `/`-separated resource path, as used by the Go code's
`components[len(components)-1]` after `strings.Split(path, "/")`. -/
def lastSeg (s : String) : String :=
  (goSplit '/' s).getLastD ""

/-- Terraform plugin framework `types.String`: a string value that can also
be null or unknown. -/
inductive TFString
  | null
  | unknown
  | value (s : String)
deriving DecidableEq

/-- Matches `types.String.IsNull()`. -/
def TFString.isNull : TFString → Bool
  | .null => true
  | _ => false

/-- Matches `types.String.IsUnknown()`. -/
def TFString.isUnknown : TFString → Bool
  | .unknown => true
  | _ => false

/-- Matches `types.String.ValueString()`, which returns the empty string for
null and unknown values. -/
def TFString.valueString : TFString → String
  | .value s => s
  | _ => ""

/-- Parsed JSON documents.  A forwarding rule's description field is carried
in the model as `Option JsonValue`: `some v` when the raw description string
parses as the JSON document `v`, `none` when it is not valid JSON (this
includes the empty string). -/
inductive JsonValue
  | null
  | bool (b : Bool)
  | num (n : Int)
  | str (s : String)
  | arr (elems : List JsonValue)
  | obj (fields : List (String × JsonValue))

/-- ASCII lower-casing of a character, used to model the case-insensitive
field-name matching of Go's `encoding/json`. -/
def asciiLower (ch : Char) : Char :=
  if 'A' ≤ ch ∧ ch ≤ 'Z' then Char.ofNat (ch.toNat + 32) else ch

/-- Case-insensitive (ASCII fold) string comparison, modelling how
`encoding/json` matches incoming object keys against struct field names. -/
def lowerEq (a b : String) : Bool :=
  a.data.map asciiLower == b.data.map asciiLower

/-- Whether a JSON object key is matched to the `K8sResource` field of the
Go struct `forwardingRuleDescription` (json tag `k8sResource`).
`encoding/json` prefers an exact match but also accepts a case-insensitive
match. -/
def jsonFieldNameMatches (k : String) : Bool :=
  lowerEq k "k8sResource"

/-- Processing of a JSON object's keys, in order, by `json.Unmarshal` into
`forwardingRuleDescription{K8sResource *string}`: every key matching the
field assigns it (a string value sets the pointer, a JSON null sets it to
nil, any other value is a type error failing the whole unmarshal); later
assignments overwrite earlier ones; unmatched keys are ignored.  Result
`none` means `json.Unmarshal` returns an error. -/
def assignK8sResource : Option String → List (String × JsonValue) → Option (Option String)
  | acc, [] => some acc
  | acc, (k, v) :: rest =>
    if jsonFieldNameMatches k then
      match v with
      | .str s => assignK8sResource (some s) rest
      | .null => assignK8sResource none rest
      | _ => none
    else assignK8sResource acc rest

/-- Go's `json.Unmarshal([]byte(desc), &forwardingRuleDescription{})` on an
already-parsed JSON document: a top-level JSON null leaves the struct
zeroed, an object is decoded field by field, any other top-level value is a
type error.  `some k` is a successful decode with `K8sResource = k`;
`none` is an unmarshal error. -/
def unmarshalForwardingRuleDescription : JsonValue → Option (Option String)
  | .null => some none
  | .obj fields => assignK8sResource none fields
  | _ => none

/-- The fields of `computepb.ForwardingRule` that the data source reads.
`name` and `target` are accessed through their `Get` accessors (which fold a
nil pointer into the empty string), so they are plain strings here;
`description` carries the JSON parse of `GetDescription()` (`none` when the
description is not valid JSON). -/
structure ForwardingRule where
  name : String
  description : Option JsonValue
  target : String

/-- The correlation key `fmt.Sprintf("/namespaces/%s/gateways/%s", namespace, gateway)`. -/
def correlationKey (ns gw : String) : String :=
  "/namespaces/" ++ ns ++ "/gateways/" ++ gw

/-- The per-rule match test of `Read`: unmarshal the description, require a
nil-free `K8sResource` field equal to the correlation key.  Unmarshal errors
and absent fields are silent non-matches. -/
def forwardingRuleMatches (ns gw : String) (r : ForwardingRule) : Bool :=
  match r.description.bind unmarshalForwardingRuleDescription with
  | some (some v) => v == correlationKey ns gw
  | _ => false

/-- The `matchingForwardingRules` list accumulated by `Read`'s iteration, in
iteration order. -/
def matchingRules (ns gw : String) (rules : List ForwardingRule) : List ForwardingRule :=
  rules.filter (forwardingRuleMatches ns gw)

/-- The one field of `computepb.TargetHttpsProxy` the data source reads,
via `GetUrlMap()`. -/
structure TargetHttpsProxy where
  urlMap : String

/-- A `computepb.WeightedBackendService`.  The Go code reads the
`BackendService` pointer directly (no accessor, no nil check), so the field
stays optional here. -/
structure WeightedBackendService where
  backendService : Option String

/-- A `computepb.HttpRouteAction`, restricted to the fields the data source
reads.  The fault-injection policy only matters through its presence. -/
structure HttpRouteAction where
  faultInjectionPolicy : Option Unit
  weightedBackendServices : List WeightedBackendService

/-- A `computepb.HttpRouteRule`, restricted to its `RouteAction` field. -/
structure HttpRouteRule where
  routeAction : Option HttpRouteAction

/-- A `computepb.PathMatcher`, restricted to the fields the data source
reads. -/
structure PathMatcher where
  defaultRouteAction : Option HttpRouteAction
  defaultService : Option String
  routeRules : List HttpRouteRule

/-- A `computepb.UrlMap`, restricted to the fields the data source reads. -/
structure UrlMap where
  defaultRouteAction : Option HttpRouteAction
  defaultService : Option String
  pathMatchers : List PathMatcher

/-- The fields of `computepb.BackendService` the data source reads, through
`GetId()` (a `uint64`) and `GetName()`. -/
structure BackendService where
  id : Nat
  name : String

/-- The `routeActions` slice built by `Read`: the URL map's default route
action, then, for each path matcher in order, its default route action
followed by each of its route rules' actions. -/
def collectedRouteActions (m : UrlMap) : List (Option HttpRouteAction) :=
  m.defaultRouteAction ::
    m.pathMatchers.flatMap (fun pm =>
      pm.defaultRouteAction :: pm.routeRules.map (fun r => r.routeAction))

/-- Candidate paths contributed by one entry of the `routeActions` slice: a
nil action, or one carrying a fault-injection policy, contributes nothing;
otherwise every weighted backend service's `BackendService` pointer is
appended in order. -/
def routeActionPaths (a : Option HttpRouteAction) : List (Option String) :=
  match a with
  | none => []
  | some act =>
    if act.faultInjectionPolicy.isSome then []
    else act.weightedBackendServices.map (fun wbs => wbs.backendService)

/-- Candidate paths contributed by the default services: the URL map's
`DefaultService` when non-nil, then each path matcher's `DefaultService`
when non-nil, in matcher order.  (In the Go code these are appended during
the same loop that collects the route actions, before any route action is
inspected.) -/
def defaultServicePaths (m : UrlMap) : List (Option String) :=
  (match m.defaultService with
    | some s => [some s]
    | none => []) ++
    m.pathMatchers.flatMap (fun pm =>
      match pm.defaultService with
      | some s => [some s]
      | none => [])

/-- The full `backendServicePaths` slice built by `Read` from the URL map:
default services first, then the contributions of the collected route
actions. -/
def backendServicePaths (m : UrlMap) : List (Option String) :=
  defaultServicePaths m ++ (collectedRouteActions m).flatMap routeActionPaths

/-- A Google API error as the data source observes it: `httpCode` is
`some c` when the error is a `gax` `apierror.APIError` with HTTP code `c`
(the only case the 404 check can hit), and `message` stands for the `%+v`
rendering interpolated into diagnostics. -/
structure ApiError where
  httpCode : Option Nat
  message : String
deriving DecidableEq

/-- Result of draining a forwarding-rule iterator: either the full list of
rules (iterator.Done reached), or the rules collected before `Next`
returned an error, together with that error. -/
inductive ListRulesOutcome
  | ok (rules : List ForwardingRule)
  | failedAt (collected : List ForwardingRule) (e : ApiError)

/-- One Google Cloud client operation, with its request parameters.  The
four `Region…` variants are the regional clients; the others are the global
clients. -/
inductive ClientCall
  | listGlobalForwardingRules (project : String)
  | listForwardingRules (project region : String)
  | getTargetHttpsProxy (project proxyName : String)
  | getRegionTargetHttpsProxy (project region proxyName : String)
  | getUrlMap (project urlMapName : String)
  | getRegionUrlMap (project region urlMapName : String)
  | getBackendService (project serviceName : String)
  | getRegionBackendService (project region serviceName : String)
deriving DecidableEq

/-- Whether a client call goes through a regional client variant. -/
def ClientCall.isRegional : ClientCall → Bool
  | .listForwardingRules _ _ => true
  | .getRegionTargetHttpsProxy _ _ _ => true
  | .getRegionUrlMap _ _ _ => true
  | .getRegionBackendService _ _ _ => true
  | _ => false

/-- Responses of the Google Cloud clients held in `GKEGatewayProviderData`,
one function per client operation the data source can perform.  `Except`
errors carry the `%+v` rendering of the underlying error. -/
structure World where
  listGlobalForwardingRules : String → ListRulesOutcome
  listForwardingRules : String → String → ListRulesOutcome
  getTargetHttpsProxy : String → String → Except String TargetHttpsProxy
  getRegionTargetHttpsProxy : String → String → String → Except String TargetHttpsProxy
  getUrlMap : String → String → Except String UrlMap
  getRegionUrlMap : String → String → String → Except String UrlMap
  getBackendService : String → String → Except String BackendService
  getRegionBackendService : String → String → String → Except String BackendService

/-- The backend-service lookup of `Read`: regional client when the
effective region is non-null, global client otherwise. -/
def getBackendServiceCall (w : World) (project : String) (region : TFString)
    (serviceName : String) : ClientCall × Except String BackendService :=
  if region.isNull then
    (.getBackendService project serviceName, w.getBackendService project serviceName)
  else
    (.getRegionBackendService project region.valueString serviceName,
      w.getRegionBackendService project region.valueString serviceName)

/-- The URL-map lookup of `Read`: regional client when the effective region
is non-null, global client otherwise. -/
def getUrlMapCall (w : World) (project : String) (region : TFString)
    (urlMapName : String) : ClientCall × Except String UrlMap :=
  if region.isNull then
    (.getUrlMap project urlMapName, w.getUrlMap project urlMapName)
  else
    (.getRegionUrlMap project region.valueString urlMapName,
      w.getRegionUrlMap project region.valueString urlMapName)

/-- The target-HTTPS-proxy lookup of `Read`: regional client when the
effective region is non-null, global client otherwise. -/
def getProxyCall (w : World) (project : String) (region : TFString)
    (proxyName : String) : ClientCall × Except String TargetHttpsProxy :=
  if region.isNull then
    (.getTargetHttpsProxy project proxyName, w.getTargetHttpsProxy project proxyName)
  else
    (.getRegionTargetHttpsProxy project region.valueString proxyName,
      w.getRegionTargetHttpsProxy project region.valueString proxyName)

/-- One diagnostic, as produced by `resp.Diagnostics.AddError(summary, detail)`. -/
structure Diagnostic where
  summary : String
  detail : String
deriving DecidableEq

/-- The `backend_service` attribute written into state on success:
`ID = strconv.FormatUint(GetId(), 10)` and `Name = GetName()`. -/
structure ResolvedBackendService where
  id : String
  name : String
deriving DecidableEq

/-- How one `Read` call terminates.  `emptySuccess` is an early `return`
with no diagnostic and no state written; `resolved` sets the state;
`failed` adds exactly one error diagnostic and returns; `panicked` is a Go
runtime panic (out-of-range index or nil pointer dereference). -/
inductive Outcome
  | emptySuccess
  | resolved (svc : ResolvedBackendService)
  | failed (d : Diagnostic)
  | panicked (msg : String)
deriving DecidableEq

/-- Result of one `Read` call: the ordered trace of client calls performed,
and the termination outcome. -/
structure ReadResult where
  calls : List ClientCall
  outcome : Outcome
deriving DecidableEq

/-- Message text of Go's out-of-range panic raised by
`targetComponents[len(targetComponents)-2]` when the slice has one element. -/
def indexOutOfRangeMsg : String :=
  "runtime error: index out of range [-1]"

/-- Message text of Go's nil-pointer panic raised by dereferencing a nil
`*string` backend-service path. -/
def nilDerefMsg : String :=
  "runtime error: invalid memory address or nil pointer dereference"

/-- Detail string `fmt.Sprintf("Error calling Google API: %+v", err)`. -/
def apiErrorDetail (msg : String) : String :=
  "Error calling Google API: " ++ msg

/-- The fold building the multiple-forwarding-rules debug message:
`debugMessage = fmt.Sprintf("%s  - %s\n", debugMessage, rule.GetName())`. -/
def appendRuleNames (acc : String) : List ForwardingRule → String
  | [] => acc
  | r :: rest => appendRuleNames (acc ++ "  - " ++ r.name ++ "\n") rest

/-- The full detail of the "Multiple matching forwarding rules found"
diagnostic. -/
def multipleRulesDetail (rules : List ForwardingRule) : String :=
  appendRuleNames "The following forwarding rules matched:\n\n" rules

/-- The fold building the multiple-backend-services debug message.  Each
path is a `*string` dereferenced without a nil check, so a nil entry aborts
the build with a panic (`none`). -/
def appendPathLabels (acc : String) : List (Option String) → Option String
  | [] => some acc
  | none :: _ => none
  | some p :: rest => appendPathLabels (acc ++ "  - " ++ lastSeg p ++ "\n") rest

/-- The full detail of the "Multiple backend services found" diagnostic
(`none` when building it panics on a nil path). -/
def multiplePathsDetail (paths : List (Option String)) : Option String :=
  appendPathLabels "The following backend services matched:\n\n" paths

/-- Final stage of `Read`: fetch the sole backend-service candidate by the
last segment of its path, through the regional or global client per the
effective region, and either record the lookup failure or write the
resolved service into state. -/
def resolveBackendServiceStage (w : World) (project : String) (region : TFString)
    (calls : List ClientCall) (path : String) : ReadResult :=
  let serviceName := lastSeg path
  let cr := getBackendServiceCall w project region serviceName
  match cr.2 with
  | .error msg =>
    ⟨calls ++ [cr.1],
      .failed ⟨"Error looking up backend service " ++ serviceName, apiErrorDetail msg⟩⟩
  | .ok bs =>
    ⟨calls ++ [cr.1], .resolved ⟨Nat.repr bs.id, bs.name⟩⟩

/-- Candidate-extraction stage of `Read`: build `backendServicePaths` from
the URL map and disambiguate — zero paths is an error diagnostic, one path
continues to the backend-service lookup, several paths produce the
enumerating diagnostic.  Dereferencing a nil path panics. -/
def extractStage (w : World) (project : String) (region : TFString)
    (calls : List ClientCall) (m : UrlMap) : ReadResult :=
  match backendServicePaths m with
  | [] => ⟨calls, .failed ⟨"No backend services found", ""⟩⟩
  | [some p] => resolveBackendServiceStage w project region calls p
  | [none] => ⟨calls, .panicked nilDerefMsg⟩
  | paths =>
    match multiplePathsDetail paths with
    | none => ⟨calls, .panicked nilDerefMsg⟩
    | some detail => ⟨calls, .failed ⟨"Multiple backend services found", detail⟩⟩

/-- URL-map stage of `Read`: fetch the URL map named by the last segment of
the proxy's `UrlMap` path, through the client variant matching the
effective region, then extract candidates. -/
def urlMapStage (w : World) (project : String) (region : TFString)
    (calls : List ClientCall) (urlMapResource : String) : ReadResult :=
  let urlMapName := (goSplit '/' urlMapResource).getLastD ""
  let cr := getUrlMapCall w project region urlMapName
  match cr.2 with
  | .error msg =>
    ⟨calls ++ [cr.1], .failed ⟨"Error looking up URL map " ++ urlMapName, apiErrorDetail msg⟩⟩
  | .ok m => extractStage w project region (calls ++ [cr.1]) m

/-- The proxy kind of a forwarding rule: second-to-last segment of its
target split on `/` (`targetComponents[len(targetComponents)-2]`). -/
def targetKind (r : ForwardingRule) : String :=
  let comps := goSplit '/' r.target
  comps.getD (comps.length - 2) ""

/-- Proxy stage of `Read`: split the sole matching rule's target, panic if
the slice is too short for the `len-2` index, dispatch on the proxy kind
(only `targetHttpsProxies` is supported), fetch the proxy through the
client variant matching the effective region, and continue with its URL
map. -/
def proxyStage (w : World) (project : String) (region : TFString)
    (calls : List ClientCall) (rule : ForwardingRule) : ReadResult :=
  let comps := goSplit '/' rule.target
  if comps.length < 2 then ⟨calls, .panicked indexOutOfRangeMsg⟩
  else if targetKind rule == "targetHttpsProxies" then
    let proxyName := comps.getLastD ""
    let cr := getProxyCall w project region proxyName
    match cr.2 with
    | .error msg =>
      ⟨calls ++ [cr.1],
        .failed ⟨"Error looking up HTTPS target proxy " ++ proxyName, apiErrorDetail msg⟩⟩
    | .ok proxy => urlMapStage w project region (calls ++ [cr.1]) proxy.urlMap
  else
    ⟨calls,
      .failed ⟨"Unsupported target type for forwarding rule",
        "The " ++ rule.name ++ " forwarding rule has a target with a type of " ++
          targetKind rule ++ " which is currently unsupported by this provider."⟩⟩

/-- Disambiguation of the matched forwarding rules: none is an early empty
success, exactly one continues to the proxy stage, several produce the
enumerating diagnostic. -/
def matchStage (w : World) (project : String) (region : TFString)
    (calls : List ClientCall) (ns gw : String) (rules : List ForwardingRule) : ReadResult :=
  match matchingRules ns gw rules with
  | [] => ⟨calls, .emptySuccess⟩
  | [r] => proxyStage w project region calls r
  | ms => ⟨calls, .failed ⟨"Multiple matching forwarding rules found", multipleRulesDetail ms⟩⟩

/-- The `project` and `region` fields of `GKEGatewayProviderData`
(`provider.go`); the client handles are modelled by `World`. -/
structure GKEGatewayProviderData where
  project : TFString
  region : TFString

/-- The configuration half of `BackendServiceDataSourceModel`
(`tfsdk:gateway`, `tfsdk:namespace`, `tfsdk:project`, `tfsdk:region`);
the computed `backend_service` attribute is carried in the outcome. -/
structure BackendServiceDataSourceModel where
  gateway : TFString
  k8sNamespace : TFString
  project : TFString
  region : TFString

/-- The effective project: the provider-level value, overridden by the
data-source value when that is non-null. -/
def effectiveProject (pd : GKEGatewayProviderData) (data : BackendServiceDataSourceModel) : String :=
  if data.project.isNull then pd.project.valueString else data.project.valueString

/-- The effective region: the provider-level value, overridden by the
data-source value when that is non-null. -/
def effectiveRegion (pd : GKEGatewayProviderData) (data : BackendServiceDataSourceModel) : TFString :=
  if data.region.isNull then pd.region else data.region

/-- The forwarding-rule listing call: global client when the effective
region is null, regional client otherwise. -/
def listRulesCall (w : World) (project : String) (region : TFString) :
    ClientCall × ListRulesOutcome :=
  if region.isNull then
    (.listGlobalForwardingRules project, w.listGlobalForwardingRules project)
  else
    (.listForwardingRules project region.valueString,
      w.listForwardingRules project region.valueString)

/-- Diagnostic of the missing-project validation error. -/
def missingProjectDiag : Diagnostic :=
  ⟨"Missing project", "The project field must be set on either the provider or data source."⟩

/-- Diagnostic of the unknown-project validation error. -/
def unknownProjectDiag : Diagnostic :=
  ⟨"Unknown project", "The project field on the data source cannot be set to an unknown value"⟩

/-- Diagnostic of the unknown-region validation error. -/
def unknownRegionDiag : Diagnostic :=
  ⟨"Unknown region", "The region field on the data source cannot be set to an unknown value"⟩

/-- The whole `BackendServiceDataSource.Read` pipeline, given the provider
data, the data-source configuration and the client responses: validate
project and region, list the forwarding rules (treating a 404 `APIError` as
an empty success and any other iteration error as a lookup failure), then
match, disambiguate and resolve through the remaining stages. -/
def read (pd : GKEGatewayProviderData) (data : BackendServiceDataSourceModel)
    (w : World) : ReadResult :=
  if pd.project.isNull && data.project.isNull then ⟨[], .failed missingProjectDiag⟩
  else if data.project.isUnknown then ⟨[], .failed unknownProjectDiag⟩
  else if data.region.isUnknown then ⟨[], .failed unknownRegionDiag⟩
  else
    let project := effectiveProject pd data
    let region := effectiveRegion pd data
    let cr := listRulesCall w project region
    match cr.2 with
    | .failedAt _ e =>
      if e.httpCode == some 404 then ⟨[cr.1], .emptySuccess⟩
      else
        ⟨[cr.1],
          .failed ⟨"Unable to iterate over forwarding rules", apiErrorDetail e.message⟩⟩
    | .ok rules =>
      matchStage w project region [cr.1]
        data.k8sNamespace.valueString data.gateway.valueString rules

/-- Whether the three up-front validation checks of `Read` all pass. -/
def validationPasses (pd : GKEGatewayProviderData)
    (data : BackendServiceDataSourceModel) : Bool :=
  !(pd.project.isNull && data.project.isNull) &&
    !data.project.isUnknown && !data.region.isUnknown

/-- The candidate-path list in the order the specification describes it:
the routing map's default service if present, then each path matcher's
default service in matcher order, then, for every collected route action
(map default, then per matcher its default followed by its route rules'
actions) that is present and carries no fault-injection policy, all of its
weighted backend services' paths in listed order.  Stated from the spec
wording, to be compared with `backendServicePaths` from the code. -/
def specOrderedCandidatePaths (m : UrlMap) : List (Option String) :=
  (m.defaultService.map some).toList
    ++ (m.pathMatchers.filterMap (fun pm => pm.defaultService)).map some
    ++ (m.defaultRouteAction :: m.pathMatchers.flatMap
          (fun pm => pm.defaultRouteAction :: pm.routeRules.map (fun r => r.routeAction))).flatMap
        (fun a =>
          match a with
          | some act =>
            if act.faultInjectionPolicy.isNone then
              act.weightedBackendServices.map (fun wbs => wbs.backendService)
            else []
          | none => [])

/-! Concrete scenario data used by witnesses and counterexamples. -/

/-- A world whose scopes contain no resources and whose lookups fail. -/
def baseWorld : World where
  listGlobalForwardingRules := fun _ => .ok []
  listForwardingRules := fun _ _ => .ok []
  getTargetHttpsProxy := fun _ _ => .error "unused"
  getRegionTargetHttpsProxy := fun _ _ _ => .error "unused"
  getUrlMap := fun _ _ => .error "unused"
  getRegionUrlMap := fun _ _ _ => .error "unused"
  getBackendService := fun _ _ => .error "unused"
  getRegionBackendService := fun _ _ _ => .error "unused"

/-- Provider data with neither project nor region configured. -/
def pdNull : GKEGatewayProviderData := ⟨.null, .null⟩

/-- Data-source configuration of the end-to-end example: gateway
`my-gateway-name` in namespace `my-cool-app`, project on the data source,
no region (global scope). -/
def dataGlobal : BackendServiceDataSourceModel :=
  ⟨.value "my-gateway-name", .value "my-cool-app", .value "my-gcp-project", .null⟩

/-- The end-to-end example's forwarding rule `fr-1`: description
correlating it to `/namespaces/my-cool-app/gateways/my-gateway-name`,
target ending in `targetHttpsProxies/proxy-1`. -/
def ruleFr1 : ForwardingRule where
  name := "fr-1"
  description := some (.obj [("k8sResource",
    .str "/namespaces/my-cool-app/gateways/my-gateway-name")])
  target := "https://www.googleapis.com/compute/v1/projects/my-gcp-project/global/targetHttpsProxies/proxy-1"

/-- URL-map path of proxy-1 in the end-to-end example. -/
def urlMapPathFr1 : String :=
  "https://www.googleapis.com/compute/v1/projects/my-gcp-project/global/urlMaps/map-1"

/-- Backend-service path of the end-to-end example's routing map. -/
def svcPathFr1 : String :=
  "https://www.googleapis.com/compute/v1/projects/my-gcp-project/global/backendServices/svc-1"

/-- Routing map with only a top-level default service (no matchers, no
route actions). -/
def urlMapFr1 : UrlMap := ⟨none, some svcPathFr1, []⟩

/-- Routing map with no default services, no matchers and no route
actions: it yields zero candidate paths. -/
def urlMapNoCandidates : UrlMap := ⟨none, none, []⟩

/-- Backend-service path of a second service, `svc-2`. -/
def svcPath2 : String :=
  "https://www.googleapis.com/compute/v1/projects/my-gcp-project/global/backendServices/svc-2"

/-- Routing map with a top-level default service `svc-1` and one path
matcher whose default service is `svc-2`: it yields two candidate paths. -/
def urlMapTwoSvc : UrlMap := ⟨none, some svcPathFr1, [⟨none, some svcPath2, []⟩]⟩

/-- World realising the end-to-end example: one matching rule `fr-1`,
proxy-1 referencing map-1, map-1 defaulting to svc-1, svc-1 fetchable. -/
def wEndToEnd : World :=
  { baseWorld with
    listGlobalForwardingRules := fun _ => .ok [ruleFr1]
    getTargetHttpsProxy := fun _ _ => .ok ⟨urlMapPathFr1⟩
    getUrlMap := fun _ _ => .ok urlMapFr1
    getBackendService := fun _ _ => .ok ⟨1234567890, "svc-1"⟩ }

/-- World for the zero-candidate scenario: the sole matching rule resolves
through proxy-1 to a routing map that yields no candidate paths. -/
def wNoCandidates : World :=
  { baseWorld with
    listGlobalForwardingRules := fun _ => .ok [ruleFr1]
    getTargetHttpsProxy := fun _ _ => .ok ⟨urlMapPathFr1⟩
    getUrlMap := fun _ _ => .ok urlMapNoCandidates }

/-- Matching forwarding rule named `fr-a` (same correlation key as
`ruleFr1`). -/
def ruleFrA : ForwardingRule where
  name := "fr-a"
  description := some (.obj [("k8sResource",
    .str "/namespaces/my-cool-app/gateways/my-gateway-name")])
  target := "https://www.googleapis.com/compute/v1/projects/my-gcp-project/global/targetHttpsProxies/proxy-1"

/-- Matching forwarding rule named `fr-b` (same correlation key as
`ruleFr1`). -/
def ruleFrB : ForwardingRule where
  name := "fr-b"
  description := some (.obj [("k8sResource",
    .str "/namespaces/my-cool-app/gateways/my-gateway-name")])
  target := "https://www.googleapis.com/compute/v1/projects/my-gcp-project/global/targetHttpsProxies/proxy-2"

/-- World whose global scope holds the two matching rules `fr-a` and
`fr-b`. -/
def wTwoRules : World :=
  { baseWorld with listGlobalForwardingRules := fun _ => .ok [ruleFrA, ruleFrB] }

/-- Matching forwarding rule whose target is a TCP proxy. -/
def ruleTcp : ForwardingRule where
  name := "fr-tcp"
  description := some (.obj [("k8sResource",
    .str "/namespaces/my-cool-app/gateways/my-gateway-name")])
  target := "https://www.googleapis.com/compute/v1/projects/my-gcp-project/global/targetTcpProxies/p1"

/-- World whose global scope holds only the TCP-targeted matching rule. -/
def wTcpRule : World :=
  { baseWorld with listGlobalForwardingRules := fun _ => .ok [ruleTcp] }

/-- Matching forwarding rule whose target contains no `/` separator. -/
def ruleNoSlash : ForwardingRule where
  name := "fr-noslash"
  description := some (.obj [("k8sResource",
    .str "/namespaces/my-cool-app/gateways/my-gateway-name")])
  target := "not-a-path"

/-- World whose global scope holds only the slash-free-target rule. -/
def wNoSlash : World :=
  { baseWorld with listGlobalForwardingRules := fun _ => .ok [ruleNoSlash] }

/-- World whose forwarding-rule iteration fails with a 404 `APIError`. -/
def w404 : World :=
  { baseWorld with
    listGlobalForwardingRules := fun _ => .failedAt [] ⟨some 404, "googleapi: Error 404"⟩ }

/-- World whose forwarding-rule iteration fails with a non-404 error. -/
def wIterErr : World :=
  { baseWorld with
    listGlobalForwardingRules := fun _ => .failedAt [] ⟨some 500, "googleapi: Error 500"⟩ }

/-! Helper lemmas about the string builders and the splitter. -/

lemma stringJoin_cons (s : String) (l : List String) :
    String.join (s :: l) = s ++ String.join l := by
  apply String.ext
  simp [String.join_eq]

lemma stringJoin_nil : String.join [] = "" := rfl

lemma appendRuleNames_eq (l : List ForwardingRule) (acc : String) :
    appendRuleNames acc l
      = acc ++ String.join (l.map (fun r => "  - " ++ r.name ++ "\n")) := by
  induction l generalizing acc with
  | nil =>
    rw [appendRuleNames, List.map_nil, stringJoin_nil, String.append_empty]
  | cons r rest ih =>
    rw [appendRuleNames, ih, List.map_cons, stringJoin_cons]
    simp [String.append_assoc]

lemma appendPathLabels_map_some (ss : List String) (acc : String) :
    appendPathLabels acc (ss.map some)
      = some (acc ++ String.join (ss.map (fun s => "  - " ++ lastSeg s ++ "\n"))) := by
  induction ss generalizing acc with
  | nil =>
    rw [List.map_nil, appendPathLabels, List.map_nil, stringJoin_nil, String.append_empty]
  | cons s rest ih =>
    rw [List.map_cons, appendPathLabels, ih, List.map_cons, stringJoin_cons]
    simp [String.append_assoc]

lemma splitChars_ne_nil (c : Char) (l : List Char) : splitChars c l ≠ [] := by
  cases l with
  | nil => simp [splitChars]
  | cons x xs =>
    simp only [splitChars]
    split <;> split <;> simp

lemma splitChars_length (c : Char) (l : List Char) :
    (splitChars c l).length = l.count c + 1 := by
  induction l with
  | nil => rfl
  | cons x xs ih =>
    simp only [splitChars]
    cases h : splitChars c xs with
    | nil => exact absurd h (splitChars_ne_nil c xs)
    | cons a t =>
      rw [h] at ih
      cases hx : x == c <;> simp [hx, List.count_cons] at ih ⊢ <;> omega

lemma goSplit_length (c : Char) (s : String) :
    (goSplit c s).length = s.data.count c + 1 := by
  simp [goSplit, splitChars_length]

/-! Helper lemmas reducing `read` and its stages under hypotheses on the
client responses. -/

lemma validationPasses_iff (pd : GKEGatewayProviderData) (data : BackendServiceDataSourceModel) :
    validationPasses pd data = true ↔
      (pd.project.isNull && data.project.isNull) = false ∧
        data.project.isUnknown = false ∧ data.region.isUnknown = false := by
  unfold validationPasses
  cases hp : pd.project.isNull <;> cases hdp : data.project.isNull <;>
    cases hdu : data.project.isUnknown <;> cases hdr : data.region.isUnknown <;> simp

lemma read_eq_matchStage (pd : GKEGatewayProviderData) (data : BackendServiceDataSourceModel)
    (w : World) (rules : List ForwardingRule)
    (hval : validationPasses pd data = true)
    (hlist : (listRulesCall w (effectiveProject pd data) (effectiveRegion pd data)).2
      = .ok rules) :
    read pd data w
      = matchStage w (effectiveProject pd data) (effectiveRegion pd data)
          [(listRulesCall w (effectiveProject pd data) (effectiveRegion pd data)).1]
          data.k8sNamespace.valueString data.gateway.valueString rules := by
  obtain ⟨h1, h2, h3⟩ := (validationPasses_iff pd data).mp hval
  simp only [read, h1, h2, h3, Bool.false_eq_true, if_false, hlist]

lemma read_eq_listErr (pd : GKEGatewayProviderData) (data : BackendServiceDataSourceModel)
    (w : World) (collected : List ForwardingRule) (e : ApiError)
    (hval : validationPasses pd data = true)
    (hlist : (listRulesCall w (effectiveProject pd data) (effectiveRegion pd data)).2
      = .failedAt collected e) :
    read pd data w
      = if e.httpCode == some 404 then
          ⟨[(listRulesCall w (effectiveProject pd data) (effectiveRegion pd data)).1],
            .emptySuccess⟩
        else
          ⟨[(listRulesCall w (effectiveProject pd data) (effectiveRegion pd data)).1],
            .failed ⟨"Unable to iterate over forwarding rules", apiErrorDetail e.message⟩⟩ := by
  obtain ⟨h1, h2, h3⟩ := (validationPasses_iff pd data).mp hval
  simp only [read, h1, h2, h3, Bool.false_eq_true, if_false, hlist]

lemma matchStage_nil (w : World) (project : String) (region : TFString)
    (calls : List ClientCall) (ns gw : String) (rules : List ForwardingRule)
    (h : matchingRules ns gw rules = []) :
    matchStage w project region calls ns gw rules = ⟨calls, .emptySuccess⟩ := by
  unfold matchStage
  rw [h]

lemma matchStage_single (w : World) (project : String) (region : TFString)
    (calls : List ClientCall) (ns gw : String) (rules : List ForwardingRule)
    (r : ForwardingRule) (h : matchingRules ns gw rules = [r]) :
    matchStage w project region calls ns gw rules = proxyStage w project region calls r := by
  unfold matchStage
  rw [h]

lemma matchStage_multi (w : World) (project : String) (region : TFString)
    (calls : List ClientCall) (ns gw : String) (rules : List ForwardingRule)
    (r1 r2 : ForwardingRule) (rest : List ForwardingRule)
    (h : matchingRules ns gw rules = r1 :: r2 :: rest) :
    matchStage w project region calls ns gw rules
      = ⟨calls, .failed ⟨"Multiple matching forwarding rules found",
          multipleRulesDetail (r1 :: r2 :: rest)⟩⟩ := by
  unfold matchStage
  rw [h]

lemma proxyStage_shortTarget (w : World) (project : String) (region : TFString)
    (calls : List ClientCall) (rule : ForwardingRule)
    (h : (goSplit '/' rule.target).length < 2) :
    proxyStage w project region calls rule = ⟨calls, .panicked indexOutOfRangeMsg⟩ := by
  simp [proxyStage, h]

lemma proxyStage_unsupported (w : World) (project : String) (region : TFString)
    (calls : List ClientCall) (rule : ForwardingRule)
    (hlen : 2 ≤ (goSplit '/' rule.target).length)
    (hkind : targetKind rule ≠ "targetHttpsProxies") :
    proxyStage w project region calls rule
      = ⟨calls, .failed ⟨"Unsupported target type for forwarding rule",
          "The " ++ rule.name ++ " forwarding rule has a target with a type of " ++
            targetKind rule ++ " which is currently unsupported by this provider."⟩⟩ := by
  have h1 : ¬ (goSplit '/' rule.target).length < 2 := not_lt.mpr hlen
  have h2 : (targetKind rule == "targetHttpsProxies") = false := by
    simpa using hkind
  simp [proxyStage, h1, h2]

lemma proxyStage_httpsOk (w : World) (project : String) (region : TFString)
    (calls : List ClientCall) (rule : ForwardingRule) (proxy : TargetHttpsProxy)
    (hlen : 2 ≤ (goSplit '/' rule.target).length)
    (hkind : targetKind rule = "targetHttpsProxies")
    (hget : (getProxyCall w project region ((goSplit '/' rule.target).getLastD "")).2
      = .ok proxy) :
    proxyStage w project region calls rule
      = urlMapStage w project region
          (calls ++ [(getProxyCall w project region ((goSplit '/' rule.target).getLastD "")).1])
          proxy.urlMap := by
  have h1 : ¬ (goSplit '/' rule.target).length < 2 := not_lt.mpr hlen
  simp only [List.getLastD_eq_getLast?] at hget
  simp [proxyStage, h1, hkind, hget]

lemma proxyStage_httpsErr (w : World) (project : String) (region : TFString)
    (calls : List ClientCall) (rule : ForwardingRule) (msg : String)
    (hlen : 2 ≤ (goSplit '/' rule.target).length)
    (hkind : targetKind rule = "targetHttpsProxies")
    (hget : (getProxyCall w project region ((goSplit '/' rule.target).getLastD "")).2
      = .error msg) :
    proxyStage w project region calls rule
      = ⟨calls ++ [(getProxyCall w project region ((goSplit '/' rule.target).getLastD "")).1],
          .failed ⟨"Error looking up HTTPS target proxy " ++
            (goSplit '/' rule.target).getLastD "", apiErrorDetail msg⟩⟩ := by
  have h1 : ¬ (goSplit '/' rule.target).length < 2 := not_lt.mpr hlen
  simp only [List.getLastD_eq_getLast?] at hget
  simp [proxyStage, h1, hkind, hget]

lemma urlMapStage_ok (w : World) (project : String) (region : TFString)
    (calls : List ClientCall) (res : String) (m : UrlMap)
    (hget : (getUrlMapCall w project region ((goSplit '/' res).getLastD "")).2 = .ok m) :
    urlMapStage w project region calls res
      = extractStage w project region
          (calls ++ [(getUrlMapCall w project region ((goSplit '/' res).getLastD "")).1]) m := by
  simp only [List.getLastD_eq_getLast?] at hget
  simp [urlMapStage, hget]

lemma urlMapStage_err (w : World) (project : String) (region : TFString)
    (calls : List ClientCall) (res : String) (msg : String)
    (hget : (getUrlMapCall w project region ((goSplit '/' res).getLastD "")).2
      = .error msg) :
    urlMapStage w project region calls res
      = ⟨calls ++ [(getUrlMapCall w project region ((goSplit '/' res).getLastD "")).1],
          .failed ⟨"Error looking up URL map " ++ (goSplit '/' res).getLastD "",
            apiErrorDetail msg⟩⟩ := by
  simp only [List.getLastD_eq_getLast?] at hget
  simp [urlMapStage, hget]

lemma extractStage_nil (w : World) (project : String) (region : TFString)
    (calls : List ClientCall) (m : UrlMap)
    (h : backendServicePaths m = []) :
    extractStage w project region calls m
      = ⟨calls, .failed ⟨"No backend services found", ""⟩⟩ := by
  unfold extractStage
  rw [h]

lemma extractStage_single (w : World) (project : String) (region : TFString)
    (calls : List ClientCall) (m : UrlMap) (p : String)
    (h : backendServicePaths m = [some p]) :
    extractStage w project region calls m
      = resolveBackendServiceStage w project region calls p := by
  unfold extractStage
  rw [h]

lemma extractStage_multi (w : World) (project : String) (region : TFString)
    (calls : List ClientCall) (m : UrlMap) (s1 s2 : String) (rest : List String)
    (h : backendServicePaths m = (s1 :: s2 :: rest).map some) :
    extractStage w project region calls m
      = ⟨calls, .failed ⟨"Multiple backend services found",
          "The following backend services matched:\n\n" ++
            String.join ((s1 :: s2 :: rest).map (fun s => "  - " ++ lastSeg s ++ "\n"))⟩⟩ := by
  unfold extractStage
  rw [h]
  have hl := appendPathLabels_map_some (s1 :: s2 :: rest)
    "The following backend services matched:\n\n"
  simp only [List.map_cons] at hl
  simp only [multiplePathsDetail, List.map_cons, hl]

lemma resolveBackendServiceStage_ok (w : World) (project : String) (region : TFString)
    (calls : List ClientCall) (path : String) (bs : BackendService)
    (hget : (getBackendServiceCall w project region (lastSeg path)).2 = .ok bs) :
    resolveBackendServiceStage w project region calls path
      = ⟨calls ++ [(getBackendServiceCall w project region (lastSeg path)).1],
          .resolved ⟨Nat.repr bs.id, bs.name⟩⟩ := by
  simp [resolveBackendServiceStage, hget]

lemma resolveBackendServiceStage_err (w : World) (project : String) (region : TFString)
    (calls : List ClientCall) (path : String) (msg : String)
    (hget : (getBackendServiceCall w project region (lastSeg path)).2 = .error msg) :
    resolveBackendServiceStage w project region calls path
      = ⟨calls ++ [(getBackendServiceCall w project region (lastSeg path)).1],
          .failed ⟨"Error looking up backend service " ++ lastSeg path,
            apiErrorDetail msg⟩⟩ := by
  simp [resolveBackendServiceStage, hget]

/-! Helper lemmas tracking which client variant each stage uses. -/

lemma listRulesCall_fst_isRegional (w : World) (project : String) (region : TFString) :
    (listRulesCall w project region).1.isRegional = !region.isNull := by
  cases hR : region.isNull <;> simp [listRulesCall, hR, ClientCall.isRegional]

lemma getProxyCall_fst_isRegional (w : World) (project : String) (region : TFString)
    (proxyName : String) :
    (getProxyCall w project region proxyName).1.isRegional = !region.isNull := by
  cases hR : region.isNull <;> simp [getProxyCall, hR, ClientCall.isRegional]

lemma getUrlMapCall_fst_isRegional (w : World) (project : String) (region : TFString)
    (urlMapName : String) :
    (getUrlMapCall w project region urlMapName).1.isRegional = !region.isNull := by
  cases hR : region.isNull <;> simp [getUrlMapCall, hR, ClientCall.isRegional]

lemma getBackendServiceCall_fst_isRegional (w : World) (project : String) (region : TFString)
    (serviceName : String) :
    (getBackendServiceCall w project region serviceName).1.isRegional = !region.isNull := by
  cases hR : region.isNull <;> simp [getBackendServiceCall, hR, ClientCall.isRegional]

lemma calls_resolveBackendServiceStage (w : World) (project : String) (region : TFString)
    (calls : List ClientCall) (path : String) (c : ClientCall)
    (h : c ∈ (resolveBackendServiceStage w project region calls path).calls) :
    c ∈ calls ∨ c.isRegional = !region.isNull := by
  simp only [resolveBackendServiceStage] at h
  split at h <;>
  · simp only [List.mem_append, List.mem_singleton] at h
    rcases h with h | h
    · exact Or.inl h
    · exact Or.inr (h ▸ getBackendServiceCall_fst_isRegional w project region (lastSeg path))

lemma calls_extractStage (w : World) (project : String) (region : TFString)
    (calls : List ClientCall) (m : UrlMap) (c : ClientCall)
    (h : c ∈ (extractStage w project region calls m).calls) :
    c ∈ calls ∨ c.isRegional = !region.isNull := by
  simp only [extractStage] at h
  split at h
  · exact Or.inl h
  · exact calls_resolveBackendServiceStage w project region calls _ c h
  · exact Or.inl h
  · split at h <;> exact Or.inl h

lemma calls_urlMapStage (w : World) (project : String) (region : TFString)
    (calls : List ClientCall) (res : String) (c : ClientCall)
    (h : c ∈ (urlMapStage w project region calls res).calls) :
    c ∈ calls ∨ c.isRegional = !region.isNull := by
  simp only [urlMapStage] at h
  split at h
  · simp only [List.mem_append, List.mem_singleton] at h
    rcases h with h | h
    · exact Or.inl h
    · exact Or.inr (h ▸ getUrlMapCall_fst_isRegional w project region _)
  · rcases calls_extractStage w project region _ _ c h with h' | h'
    · simp only [List.mem_append, List.mem_singleton] at h'
      rcases h' with h' | h'
      · exact Or.inl h'
      · exact Or.inr (h' ▸ getUrlMapCall_fst_isRegional w project region _)
    · exact Or.inr h'

lemma calls_proxyStage (w : World) (project : String) (region : TFString)
    (calls : List ClientCall) (rule : ForwardingRule) (c : ClientCall)
    (h : c ∈ (proxyStage w project region calls rule).calls) :
    c ∈ calls ∨ c.isRegional = !region.isNull := by
  simp only [proxyStage] at h
  split at h
  · exact Or.inl h
  · split at h
    · split at h
      · simp only [List.mem_append, List.mem_singleton] at h
        rcases h with h | h
        · exact Or.inl h
        · exact Or.inr (h ▸ getProxyCall_fst_isRegional w project region _)
      · rcases calls_urlMapStage w project region _ _ c h with h' | h'
        · simp only [List.mem_append, List.mem_singleton] at h'
          rcases h' with h' | h'
          · exact Or.inl h'
          · exact Or.inr (h' ▸ getProxyCall_fst_isRegional w project region _)
        · exact Or.inr h'
    · exact Or.inl h

lemma calls_matchStage (w : World) (project : String) (region : TFString)
    (calls : List ClientCall) (ns gw : String) (rules : List ForwardingRule) (c : ClientCall)
    (h : c ∈ (matchStage w project region calls ns gw rules).calls) :
    c ∈ calls ∨ c.isRegional = !region.isNull := by
  simp only [matchStage] at h
  split at h
  · exact Or.inl h
  · exact calls_proxyStage w project region calls _ c h
  · exact Or.inl h

lemma filterMap_defaultService_map_some (l : List PathMatcher) :
    (l.filterMap (fun pm => pm.defaultService)).map some
      = l.flatMap (fun pm =>
          match pm.defaultService with
          | some s => [some s]
          | none => []) := by
  induction l with
  | nil => rfl
  | cons pm rest ih =>
    cases h : pm.defaultService <;> simp [List.filterMap_cons, h, ih]

lemma routeActionPaths_eq_specForm :
    routeActionPaths = fun a =>
      match a with
      | some act =>
        if act.faultInjectionPolicy.isNone then
          act.weightedBackendServices.map (fun wbs => wbs.backendService)
        else []
      | none => [] := by
  funext a
  cases a with
  | none => rfl
  | some act =>
    cases hf : act.faultInjectionPolicy <;>
      simp [routeActionPaths, hf]

lemma read_calls_invalid (pd : GKEGatewayProviderData) (data : BackendServiceDataSourceModel)
    (w : World) (h : validationPasses pd data = false) :
    (read pd data w).calls = [] := by
  unfold validationPasses at h
  cases hp : pd.project.isNull <;> cases hdp : data.project.isNull <;>
    cases hu : data.project.isUnknown <;> cases hr : data.region.isUnknown <;>
    rw [hp, hdp, hu, hr] at h <;> simp at h <;>
    simp [read, hp, hdp, hu, hr]

/-! Claim theorems. -/

/-- C3: for every routing map, the extracted candidate-path list is exactly
the map's default service if present, then each path matcher's default
service in matcher order, then, for every collected route action (map
default, each matcher's default, each matcher's route rules' actions) that
is present and has no fault-injection policy, all of its weighted backend
services' paths in listed order; and a route action carrying a
fault-injection policy contributes zero candidates regardless of its
weighted backend services. -/
theorem claim_C3 :
    (∀ m : UrlMap, backendServicePaths m = specOrderedCandidatePaths m)
    ∧ (∀ act : HttpRouteAction, act.faultInjectionPolicy.isSome = true →
        routeActionPaths (some act) = []) := by
  constructor
  · intro m
    unfold backendServicePaths defaultServicePaths collectedRouteActions
      specOrderedCandidatePaths
    rw [List.append_assoc, routeActionPaths_eq_specForm, ← filterMap_defaultService_map_some]
    cases h : m.defaultService <;> simp [h]
  · intro act hf
    simp [routeActionPaths, hf]

/-- C3 witness: a route action with a fault-injection policy and a
non-empty weighted-backend-service list contributes no candidate path, and
the code and spec extraction orders agree on a concrete routing map. -/
theorem claim_C3_witness :
    backendServicePaths urlMapFr1 = specOrderedCandidatePaths urlMapFr1
    ∧ (HttpRouteAction.mk (some ()) [⟨some "x"⟩]).faultInjectionPolicy.isSome = true
    ∧ routeActionPaths (some (HttpRouteAction.mk (some ()) [⟨some "x"⟩])) = [] :=
  ⟨claim_C3.1 urlMapFr1, rfl,
    claim_C3.2 (HttpRouteAction.mk (some ()) [⟨some "x"⟩]) rfl⟩

/-- C4: the correlation matcher reports a match exactly when the
description decodes with a present `k8sResource` field equal to the
correlation key `/namespaces/{namespace}/gateways/{gateway}`; decode
failure or field absence is a non-match, and prefix, suffix or case
variants of the key do not match. -/
theorem claim_C4 :
    (∀ (ns gw : String) (r : ForwardingRule),
      forwardingRuleMatches ns gw r = true ↔
        r.description.bind unmarshalForwardingRuleDescription
          = some (some (correlationKey ns gw)))
    ∧ forwardingRuleMatches "my-cool-app" "my-gateway-name"
        ⟨"fr-1", some (.obj [("k8sResource",
          .str "/namespaces/my-cool-app/gateways/my-gateway-nam")]), ""⟩ = false
    ∧ forwardingRuleMatches "my-cool-app" "my-gateway-name"
        ⟨"fr-1", some (.obj [("k8sResource",
          .str "namespaces/my-cool-app/gateways/my-gateway-name")]), ""⟩ = false
    ∧ forwardingRuleMatches "my-cool-app" "my-gateway-name"
        ⟨"fr-1", some (.obj [("k8sResource",
          .str "/Namespaces/my-cool-app/gateways/my-gateway-name")]), ""⟩ = false
    ∧ forwardingRuleMatches "my-cool-app" "my-gateway-name"
        ⟨"fr-1", none, ""⟩ = false
    ∧ forwardingRuleMatches "my-cool-app" "my-gateway-name"
        ⟨"fr-1", some (.obj []), ""⟩ = false
    ∧ forwardingRuleMatches "my-cool-app" "my-gateway-name" ruleFr1 = true := by
  refine ⟨?_, by decide, by decide, by decide, by decide, by decide, by decide⟩
  intro ns gw r
  cases h : r.description.bind unmarshalForwardingRuleDescription with
  | none => simp [forwardingRuleMatches, h]
  | some o =>
    cases o with
    | none => simp [forwardingRuleMatches, h]
    | some v => simp [forwardingRuleMatches, h, beq_iff_eq]

/-- C1 counterexample: a routing map yielding zero extracted
backend-service candidate paths does not terminate the pipeline as an empty
success — the code adds the error diagnostic "No backend services found",
contradicting the claim that no error diagnostic is produced at this
fan-out. -/
theorem claim_C1_counterexample :
    backendServicePaths urlMapNoCandidates = []
    ∧ (read pdNull dataGlobal wNoCandidates).outcome
        = .failed ⟨"No backend services found", ""⟩ :=
  ⟨rfl, rfl⟩

/-- C1 amended: a fan-out producing zero matching forwarding rules
terminates the resolution as an overall empty success (no resolved service,
no diagnostic), but zero extracted backend-service candidate paths from the
routing map terminate it with the error diagnostic "No backend services
found" (empty detail), not as an empty success. -/
theorem claim_C1_amended :
    (∀ (pd : GKEGatewayProviderData) (data : BackendServiceDataSourceModel) (w : World)
        (rules : List ForwardingRule),
      validationPasses pd data = true →
      (listRulesCall w (effectiveProject pd data) (effectiveRegion pd data)).2 = .ok rules →
      matchingRules data.k8sNamespace.valueString data.gateway.valueString rules = [] →
      read pd data w
        = ⟨[(listRulesCall w (effectiveProject pd data) (effectiveRegion pd data)).1],
            .emptySuccess⟩)
    ∧ (∀ (w : World) (project : String) (region : TFString) (calls : List ClientCall)
        (m : UrlMap),
      backendServicePaths m = [] →
      extractStage w project region calls m
        = ⟨calls, .failed ⟨"No backend services found", ""⟩⟩) := by
  constructor
  · intro pd data w rules hval hlist hmatch
    rw [read_eq_matchStage pd data w rules hval hlist]
    exact matchStage_nil _ _ _ _ _ _ _ hmatch
  · intro w project region calls m h
    exact extractStage_nil w project region calls m h

/-- C1 amended witness: no rule matches in the empty world, so the
resolution is an empty success; and a zero-candidate routing map produces
the "No backend services found" error. -/
theorem claim_C1_amended_witness :
    read pdNull dataGlobal baseWorld
        = ⟨[(listRulesCall baseWorld (effectiveProject pdNull dataGlobal)
              (effectiveRegion pdNull dataGlobal)).1], .emptySuccess⟩
    ∧ extractStage baseWorld "my-gcp-project" TFString.null [] urlMapNoCandidates
        = ⟨[], .failed ⟨"No backend services found", ""⟩⟩ :=
  ⟨claim_C1_amended.1 pdNull dataGlobal baseWorld [] (by decide) rfl rfl,
    claim_C1_amended.2 baseWorld "my-gcp-project" TFString.null [] urlMapNoCandidates rfl⟩

/-- C2: in the end-to-end example — one matching rule `fr-1` with the
correlating description and an HTTPS-proxy target `proxy-1`, whose routing
map has only a top-level default service ending in `backendServices/svc-1`,
with all fetches succeeding — the resolution returns exactly one resolved
backend service named "svc-1" whose id is the fetched service's numeric id
formatted as a decimal string, with no diagnostic. -/
theorem claim_C2 (w : World) (svcId : Nat)
    (hlist : w.listGlobalForwardingRules "my-gcp-project" = .ok [ruleFr1])
    (hproxy : w.getTargetHttpsProxy "my-gcp-project" "proxy-1" = .ok ⟨urlMapPathFr1⟩)
    (hmap : w.getUrlMap "my-gcp-project" "map-1" = .ok urlMapFr1)
    (hsvc : w.getBackendService "my-gcp-project" "svc-1" = .ok ⟨svcId, "svc-1"⟩) :
    read pdNull dataGlobal w
      = ⟨[.listGlobalForwardingRules "my-gcp-project",
          .getTargetHttpsProxy "my-gcp-project" "proxy-1",
          .getUrlMap "my-gcp-project" "map-1",
          .getBackendService "my-gcp-project" "svc-1"],
          .resolved ⟨Nat.repr svcId, "svc-1"⟩⟩ := by
  rw [read_eq_matchStage pdNull dataGlobal w [ruleFr1] (by decide) hlist]
  show matchStage w "my-gcp-project" TFString.null
      [ClientCall.listGlobalForwardingRules "my-gcp-project"]
      "my-cool-app" "my-gateway-name" [ruleFr1] = _
  rw [matchStage_single w "my-gcp-project" TFString.null
      [ClientCall.listGlobalForwardingRules "my-gcp-project"]
      "my-cool-app" "my-gateway-name" [ruleFr1] ruleFr1 rfl]
  rw [proxyStage_httpsOk w "my-gcp-project" TFString.null
      [ClientCall.listGlobalForwardingRules "my-gcp-project"] ruleFr1
      ⟨urlMapPathFr1⟩ (by decide) (by decide) hproxy]
  show urlMapStage w "my-gcp-project" TFString.null
      [ClientCall.listGlobalForwardingRules "my-gcp-project",
        ClientCall.getTargetHttpsProxy "my-gcp-project" "proxy-1"]
      urlMapPathFr1 = _
  rw [urlMapStage_ok w "my-gcp-project" TFString.null
      [ClientCall.listGlobalForwardingRules "my-gcp-project",
        ClientCall.getTargetHttpsProxy "my-gcp-project" "proxy-1"]
      urlMapPathFr1 urlMapFr1 hmap]
  show extractStage w "my-gcp-project" TFString.null
      [ClientCall.listGlobalForwardingRules "my-gcp-project",
        ClientCall.getTargetHttpsProxy "my-gcp-project" "proxy-1",
        ClientCall.getUrlMap "my-gcp-project" "map-1"]
      urlMapFr1 = _
  rw [extractStage_single w "my-gcp-project" TFString.null
      [ClientCall.listGlobalForwardingRules "my-gcp-project",
        ClientCall.getTargetHttpsProxy "my-gcp-project" "proxy-1",
        ClientCall.getUrlMap "my-gcp-project" "map-1"]
      urlMapFr1 svcPathFr1 rfl]
  rw [resolveBackendServiceStage_ok w "my-gcp-project" TFString.null
      [ClientCall.listGlobalForwardingRules "my-gcp-project",
        ClientCall.getTargetHttpsProxy "my-gcp-project" "proxy-1",
        ClientCall.getUrlMap "my-gcp-project" "map-1"]
      svcPathFr1 ⟨svcId, "svc-1"⟩ hsvc]
  rfl

/-- C2 witness: the end-to-end world resolves to svc-1 with the decimal id
"1234567890". -/
theorem claim_C2_witness :
    read pdNull dataGlobal wEndToEnd
      = ⟨[.listGlobalForwardingRules "my-gcp-project",
          .getTargetHttpsProxy "my-gcp-project" "proxy-1",
          .getUrlMap "my-gcp-project" "map-1",
          .getBackendService "my-gcp-project" "svc-1"],
          .resolved ⟨"1234567890", "svc-1"⟩⟩ :=
  claim_C2 wEndToEnd 1234567890 rfl rfl rfl rfl

/-- C5: at either fan-out, two or more candidates make the resolution fail
with a diagnostic whose detail enumerates every candidate's label — the
rule name for forwarding rules, the trailing path segment for
backend-service paths — one per line, in input order. -/
theorem claim_C5 :
    (∀ (pd : GKEGatewayProviderData) (data : BackendServiceDataSourceModel) (w : World)
        (rules : List ForwardingRule) (r1 r2 : ForwardingRule) (rest : List ForwardingRule),
      validationPasses pd data = true →
      (listRulesCall w (effectiveProject pd data) (effectiveRegion pd data)).2 = .ok rules →
      matchingRules data.k8sNamespace.valueString data.gateway.valueString rules
        = r1 :: r2 :: rest →
      read pd data w
        = ⟨[(listRulesCall w (effectiveProject pd data) (effectiveRegion pd data)).1],
            .failed ⟨"Multiple matching forwarding rules found",
              "The following forwarding rules matched:\n\n" ++
                String.join ((r1 :: r2 :: rest).map (fun r => "  - " ++ r.name ++ "\n"))⟩⟩)
    ∧ (∀ (w : World) (project : String) (region : TFString) (calls : List ClientCall)
        (m : UrlMap) (s1 s2 : String) (rest : List String),
      backendServicePaths m = (s1 :: s2 :: rest).map some →
      extractStage w project region calls m
        = ⟨calls, .failed ⟨"Multiple backend services found",
            "The following backend services matched:\n\n" ++
              String.join ((s1 :: s2 :: rest).map (fun s => "  - " ++ lastSeg s ++ "\n"))⟩⟩) := by
  constructor
  · intro pd data w rules r1 r2 rest hval hlist hmatch
    rw [read_eq_matchStage pd data w rules hval hlist,
      matchStage_multi _ _ _ _ _ _ rules r1 r2 rest hmatch]
    unfold multipleRulesDetail
    rw [appendRuleNames_eq]
  · intro w project region calls m s1 s2 rest h
    exact extractStage_multi w project region calls m s1 s2 rest h

/-- C5 witness: the two matching rules `fr-a` and `fr-b` produce the
ambiguity failure listing both names, and a two-service routing map
produces the ambiguity failure listing both trailing segments. -/
theorem claim_C5_witness :
    read pdNull dataGlobal wTwoRules
        = ⟨[(listRulesCall wTwoRules (effectiveProject pdNull dataGlobal)
              (effectiveRegion pdNull dataGlobal)).1],
            .failed ⟨"Multiple matching forwarding rules found",
              "The following forwarding rules matched:\n\n" ++
                String.join ([ruleFrA, ruleFrB].map (fun r => "  - " ++ r.name ++ "\n"))⟩⟩
    ∧ extractStage baseWorld "my-gcp-project" TFString.null [] urlMapTwoSvc
        = ⟨[], .failed ⟨"Multiple backend services found",
            "The following backend services matched:\n\n" ++
              String.join ([svcPathFr1, svcPath2].map
                (fun s => "  - " ++ lastSeg s ++ "\n"))⟩⟩ :=
  ⟨claim_C5.1 pdNull dataGlobal wTwoRules [ruleFrA, ruleFrB] ruleFrA ruleFrB []
      (by decide) rfl rfl,
    claim_C5.2 baseWorld "my-gcp-project" TFString.null [] urlMapTwoSvc
      svcPathFr1 svcPath2 [] rfl⟩

/-- C6: for the sole matching rule, the proxy kind is the second-to-last
segment of its target split on `/` (`targetKind`); any kind other than
`targetHttpsProxies` makes the resolution fail with the unsupported-target
diagnostic naming the rule and the kind, and no proxy fetch occurs (the
call trace stays at the single listing call). -/
theorem claim_C6 (pd : GKEGatewayProviderData) (data : BackendServiceDataSourceModel)
    (w : World) (rules : List ForwardingRule) (rule : ForwardingRule)
    (hval : validationPasses pd data = true)
    (hlist : (listRulesCall w (effectiveProject pd data) (effectiveRegion pd data)).2
      = .ok rules)
    (hmatch : matchingRules data.k8sNamespace.valueString data.gateway.valueString rules
      = [rule])
    (hlen : 2 ≤ (goSplit '/' rule.target).length)
    (hkind : targetKind rule ≠ "targetHttpsProxies") :
    read pd data w
      = ⟨[(listRulesCall w (effectiveProject pd data) (effectiveRegion pd data)).1],
          .failed ⟨"Unsupported target type for forwarding rule",
            "The " ++ rule.name ++ " forwarding rule has a target with a type of " ++
              targetKind rule ++ " which is currently unsupported by this provider."⟩⟩ := by
  rw [read_eq_matchStage pd data w rules hval hlist,
    matchStage_single _ _ _ _ _ _ rules rule hmatch,
    proxyStage_unsupported _ _ _ _ rule hlen hkind]

/-- C6 witness: a matching rule targeting `.../targetTcpProxies/p1` fails
with the unsupported diagnostic naming kind `targetTcpProxies`, without a
proxy fetch. -/
theorem claim_C6_witness :
    targetKind ruleTcp = "targetTcpProxies"
    ∧ read pdNull dataGlobal wTcpRule
        = ⟨[(listRulesCall wTcpRule (effectiveProject pdNull dataGlobal)
              (effectiveRegion pdNull dataGlobal)).1],
            .failed ⟨"Unsupported target type for forwarding rule",
              "The " ++ ruleTcp.name ++ " forwarding rule has a target with a type of " ++
                targetKind ruleTcp ++ " which is currently unsupported by this provider."⟩⟩ :=
  ⟨by decide,
    claim_C6 pdNull dataGlobal wTcpRule [ruleTcp] ruleTcp (by decide) rfl rfl
      (by decide) (by decide)⟩

/-- C7: every client call recorded during one resolution uses the regional
variant exactly when the effective region is set: a regional resolution
never invokes a global-variant operation and vice versa. -/
theorem claim_C7 (pd : GKEGatewayProviderData) (data : BackendServiceDataSourceModel)
    (w : World) (c : ClientCall) (hc : c ∈ (read pd data w).calls) :
    c.isRegional = !(effectiveRegion pd data).isNull := by
  by_cases hval : validationPasses pd data = true
  · cases hout : (listRulesCall w (effectiveProject pd data) (effectiveRegion pd data)).2 with
    | ok rules =>
      rw [read_eq_matchStage pd data w rules hval hout] at hc
      rcases calls_matchStage w (effectiveProject pd data) (effectiveRegion pd data)
          _ _ _ rules c hc with h | h
      · simp only [List.mem_singleton] at h
        rw [h]
        exact listRulesCall_fst_isRegional w (effectiveProject pd data) (effectiveRegion pd data)
      · exact h
    | failedAt collected e =>
      rw [read_eq_listErr pd data w collected e hval hout] at hc
      split at hc <;>
      · simp only [List.mem_singleton] at hc
        rw [hc]
        exact listRulesCall_fst_isRegional w (effectiveProject pd data) (effectiveRegion pd data)
  · have hf : validationPasses pd data = false := by
      revert hval
      cases validationPasses pd data <;> simp
    rw [read_calls_invalid pd data w hf] at hc
    simp at hc

/-- C7 witness: the listing call of a concrete global resolution is a
global-variant call, matching the unset effective region. -/
theorem claim_C7_witness :
    ClientCall.listGlobalForwardingRules "my-gcp-project"
        ∈ (read pdNull dataGlobal wNoCandidates).calls
    ∧ (ClientCall.listGlobalForwardingRules "my-gcp-project").isRegional
        = !(effectiveRegion pdNull dataGlobal).isNull :=
  ⟨by decide, claim_C7 pdNull dataGlobal wNoCandidates _ (by decide)⟩

/-- C8: a forwarding-rule iteration error that is an APIError with HTTP
code 404 terminates the resolution as an empty success with no diagnostic,
while any other iteration error terminates it with the lookup-failure
diagnostic naming the operation and carrying the underlying cause; in both
cases the call trace stops at the listing call. -/
theorem claim_C8 :
    (∀ (pd : GKEGatewayProviderData) (data : BackendServiceDataSourceModel) (w : World)
        (collected : List ForwardingRule) (e : ApiError),
      validationPasses pd data = true →
      (listRulesCall w (effectiveProject pd data) (effectiveRegion pd data)).2
        = .failedAt collected e →
      e.httpCode = some 404 →
      read pd data w
        = ⟨[(listRulesCall w (effectiveProject pd data) (effectiveRegion pd data)).1],
            .emptySuccess⟩)
    ∧ (∀ (pd : GKEGatewayProviderData) (data : BackendServiceDataSourceModel) (w : World)
        (collected : List ForwardingRule) (e : ApiError),
      validationPasses pd data = true →
      (listRulesCall w (effectiveProject pd data) (effectiveRegion pd data)).2
        = .failedAt collected e →
      e.httpCode ≠ some 404 →
      read pd data w
        = ⟨[(listRulesCall w (effectiveProject pd data) (effectiveRegion pd data)).1],
            .failed ⟨"Unable to iterate over forwarding rules",
              "Error calling Google API: " ++ e.message⟩⟩) := by
  constructor
  · intro pd data w collected e hval herr h404
    rw [read_eq_listErr pd data w collected e hval herr]
    simp [h404]
  · intro pd data w collected e hval herr h404
    rw [read_eq_listErr pd data w collected e hval herr]
    have hbeq : (e.httpCode == some 404) = false := by simpa using h404
    simp [hbeq, apiErrorDetail]

/-- C8 witness: a 404 APIError during iteration yields an empty success,
and a 500 error yields the lookup-failure diagnostic carrying the cause. -/
theorem claim_C8_witness :
    read pdNull dataGlobal w404
        = ⟨[(listRulesCall w404 (effectiveProject pdNull dataGlobal)
              (effectiveRegion pdNull dataGlobal)).1], .emptySuccess⟩
    ∧ read pdNull dataGlobal wIterErr
        = ⟨[(listRulesCall wIterErr (effectiveProject pdNull dataGlobal)
              (effectiveRegion pdNull dataGlobal)).1],
            .failed ⟨"Unable to iterate over forwarding rules",
              "Error calling Google API: " ++ "googleapi: Error 500"⟩⟩ :=
  ⟨claim_C8.1 pdNull dataGlobal w404 [] ⟨some 404, "googleapi: Error 404"⟩
      (by decide) rfl rfl,
    claim_C8.2 pdNull dataGlobal wIterErr [] ⟨some 500, "googleapi: Error 500"⟩
      (by decide) rfl (by decide)⟩

/-- C9: when the sole matching rule's target contains no `/` separator
(splitting it yields a single segment), the proxy-kind extraction indexes
position -1 and the read panics instead of producing any diagnostic
outcome. -/
theorem claim_C9 (pd : GKEGatewayProviderData) (data : BackendServiceDataSourceModel)
    (w : World) (rules : List ForwardingRule) (rule : ForwardingRule)
    (hval : validationPasses pd data = true)
    (hlist : (listRulesCall w (effectiveProject pd data) (effectiveRegion pd data)).2
      = .ok rules)
    (hmatch : matchingRules data.k8sNamespace.valueString data.gateway.valueString rules
      = [rule])
    (hnoslash : rule.target.data.count '/' = 0) :
    read pd data w
      = ⟨[(listRulesCall w (effectiveProject pd data) (effectiveRegion pd data)).1],
          .panicked indexOutOfRangeMsg⟩ := by
  have hlen : (goSplit '/' rule.target).length = 1 := by
    rw [goSplit_length, hnoslash]
  rw [read_eq_matchStage pd data w rules hval hlist,
    matchStage_single _ _ _ _ _ _ rules rule hmatch,
    proxyStage_shortTarget _ _ _ _ rule (by omega)]

/-- C9 witness: a matching rule whose target is the slash-free string
`not-a-path` makes the read panic with the out-of-range message. -/
theorem claim_C9_witness :
    ruleNoSlash.target.data.count '/' = 0
    ∧ read pdNull dataGlobal wNoSlash
        = ⟨[(listRulesCall wNoSlash (effectiveProject pdNull dataGlobal)
              (effectiveRegion pdNull dataGlobal)).1], .panicked indexOutOfRangeMsg⟩ :=
  ⟨by decide,
    claim_C9 pdNull dataGlobal wNoSlash [ruleNoSlash] ruleNoSlash (by decide) rfl rfl
      (by decide)⟩

/-- C10: the effective project is the data-source project when set and the
provider project otherwise; when neither is set the call fails with the
"Missing project" diagnostic before any client call; and the data-source
region overrides the provider region when set. -/
theorem claim_C10 :
    (∀ (pd : GKEGatewayProviderData) (data : BackendServiceDataSourceModel) (w : World),
      pd.project.isNull = true → data.project.isNull = true →
      read pd data w
        = ⟨[], .failed ⟨"Missing project",
            "The project field must be set on either the provider or data source."⟩⟩)
    ∧ (∀ (pd : GKEGatewayProviderData) (data : BackendServiceDataSourceModel),
        data.project.isNull = false →
        effectiveProject pd data = data.project.valueString)
    ∧ (∀ (pd : GKEGatewayProviderData) (data : BackendServiceDataSourceModel),
        data.project.isNull = true →
        effectiveProject pd data = pd.project.valueString)
    ∧ (∀ (pd : GKEGatewayProviderData) (data : BackendServiceDataSourceModel),
        data.region.isNull = false →
        effectiveRegion pd data = data.region)
    ∧ (∀ (pd : GKEGatewayProviderData) (data : BackendServiceDataSourceModel),
        data.region.isNull = true →
        effectiveRegion pd data = pd.region) := by
  refine ⟨?_, ?_, ?_, ?_, ?_⟩
  · intro pd data w h1 h2
    simp [read, h1, h2, missingProjectDiag]
  · intro pd data h
    simp [effectiveProject, h]
  · intro pd data h
    simp [effectiveProject, h]
  · intro pd data h
    simp [effectiveRegion, h]
  · intro pd data h
    simp [effectiveRegion, h]

/-- C10 witness: with no project anywhere the read fails up front with an
empty call trace; concrete precedence checks for project and region. -/
theorem claim_C10_witness :
    read (⟨.null, .null⟩ : GKEGatewayProviderData)
        (⟨.value "g", .value "ns", .null, .null⟩ : BackendServiceDataSourceModel) baseWorld
        = ⟨[], .failed ⟨"Missing project",
            "The project field must be set on either the provider or data source."⟩⟩
    ∧ effectiveProject pdNull dataGlobal = dataGlobal.project.valueString
    ∧ effectiveProject (⟨.value "pp", .null⟩ : GKEGatewayProviderData)
        (⟨.null, .null, .null, .null⟩ : BackendServiceDataSourceModel)
        = (⟨TFString.value "pp", TFString.null⟩ : GKEGatewayProviderData).project.valueString
    ∧ effectiveRegion (⟨.null, .value "r1"⟩ : GKEGatewayProviderData)
        (⟨.null, .null, .null, .value "r2"⟩ : BackendServiceDataSourceModel)
        = (⟨TFString.null, TFString.null, TFString.null,
            TFString.value "r2"⟩ : BackendServiceDataSourceModel).region
    ∧ effectiveRegion (⟨.null, .value "r1"⟩ : GKEGatewayProviderData)
        (⟨.null, .null, .null, .null⟩ : BackendServiceDataSourceModel)
        = (⟨TFString.null, TFString.value "r1"⟩ : GKEGatewayProviderData).region :=
  ⟨claim_C10.1 ⟨.null, .null⟩ ⟨.value "g", .value "ns", .null, .null⟩ baseWorld rfl rfl,
    claim_C10.2.1 pdNull dataGlobal rfl,
    claim_C10.2.2.1 ⟨.value "pp", .null⟩ ⟨.null, .null, .null, .null⟩ rfl,
    claim_C10.2.2.2.1 ⟨.null, .value "r1"⟩ ⟨.null, .null, .null, .value "r2"⟩ rfl,
    claim_C10.2.2.2.2 ⟨.null, .value "r1"⟩ ⟨.null, .null, .null, .null⟩ rfl⟩

end GkeGateway
